import Mathlib

/-!
Shallow embedding of the geometric kernel of the `pbr` renderer core
(`src/core/src/`): vector/point/normal carriers, axis-aligned bounds,
the dense 4×4 matrix with its LAPACK-backed inversion wrapper, and the
affine `Transform` type, together with theorems settling the claims
about them.

Modelling conventions:
 * `f32` / `f64` values whose claims only concern exact arithmetic are
   modelled as rationals (`ℚ`); the widening `f32 -> f64` cast and the
   narrowing `f64 -> f32` cast are kept as named functions so the code
   structure stays visible (both are exact on the values the claims
   evaluate, hence the identity on `ℚ`).
 * floats whose claims concern NaN behaviour are modelled by `FVal`,
   a rational extended with `nan` and signed infinities.
 * a Rust `panic!` / failed `assert!` is modelled as `none` (for
   constructors) or as the `panicked` case of `RustResult`.
 * the external LAPACK backend (`dgetrf` / `dgetri`) is not code of
   this repository; it is kept abstract as a `LapackBackend`
   parameter, so theorems about the wrapper hold for every backend.
-/

namespace PBR

/-- Component carrier of `Vector2<T>` (`src/core/src/geom/vector.rs`). -/
structure Vector2 (α : Type) where
  x : α
  y : α
deriving DecidableEq, Repr

/-- Component carrier of `Vector3<T>` (`src/core/src/geom/vector.rs`). -/
structure Vector3 (α : Type) where
  x : α
  y : α
  z : α
deriving DecidableEq, Repr

/-- Component carrier of `Point2<T>` (`src/core/src/geom/point.rs`). -/
structure Point2 (α : Type) where
  x : α
  y : α
deriving DecidableEq, Repr

/-- Component carrier of `Point3<T>` (`src/core/src/geom/point.rs`). -/
structure Point3 (α : Type) where
  x : α
  y : α
  z : α
deriving DecidableEq, Repr

/-- Component carrier of `Normal3<T>` (`src/core/src/geom/normal.rs`). -/
structure Normal3 (α : Type) where
  x : α
  y : α
  z : α
deriving DecidableEq, Repr

/-- `Axis3` (`src/core/src/bounds.rs`). -/
inductive Axis3 where
  | X
  | Y
  | Z
deriving DecidableEq, Repr

/-- `Bounds2<T>` (`src/core/src/bounds.rs`): a min/max corner pair. -/
structure Bounds2 (α : Type) where
  min : Point2 α
  max : Point2 α
deriving DecidableEq, Repr

/-- `Bounds3<T>` (`src/core/src/bounds.rs`): a min/max corner pair. -/
structure Bounds3 (α : Type) where
  min : Point3 α
  max : Point3 α
deriving DecidableEq, Repr

/-- `Bounds2::new` (`src/core/src/bounds.rs` lines 15-19).  Note the
second component of `max` is `cmp::max(p1.x, p2.y)` in the source,
reproduced verbatim here. -/
def Bounds2.new {α : Type} [LinearOrder α] (p1 p2 : Point2 α) : Bounds2 α :=
  let min : Point2 α := ⟨Min.min p1.x p2.x, Min.min p1.y p2.y⟩
  let max : Point2 α := ⟨Max.max p1.x p2.x, Max.max p1.x p2.y⟩
  ⟨min, max⟩

/-- `Bounds3::new` (`src/core/src/bounds.rs` lines 66-70).  Note the
second component of `max` is `cmp::max(p1.x, p2.y)` in the source,
reproduced verbatim here. -/
def Bounds3.new {α : Type} [LinearOrder α] (p1 p2 : Point3 α) : Bounds3 α :=
  let min : Point3 α :=
    ⟨Min.min p1.x p2.x, Min.min p1.y p2.y, Min.min p1.z p2.z⟩
  let max : Point3 α :=
    ⟨Max.max p1.x p2.x, Max.max p1.x p2.y, Max.max p1.z p2.z⟩
  ⟨min, max⟩

/-- `Bounds3::diagonal` (`src/core/src/bounds.rs`): `self.max - self.min`,
via componentwise `Point3 - Point3 -> Vector3`. -/
def Bounds3.diagonal {α : Type} [Sub α] (b : Bounds3 α) : Vector3 α :=
  ⟨b.max.x - b.min.x, b.max.y - b.min.y, b.max.z - b.min.z⟩

/-- `Bounds3::maximum_extent` (`src/core/src/bounds.rs` lines 85-94). -/
def Bounds3.maximumExtent {α : Type} [Sub α] [LinearOrder α]
    (b : Bounds3 α) : Axis3 :=
  let d := b.diagonal
  if d.x > d.y ∧ d.x > d.z then Axis3.X
  else if d.y > d.z then Axis3.Y
  else Axis3.Z

/-- Spec-side notion for the `maximum_extent` tie-break: the *last* axis
(in X, Y, Z order) whose diagonal component attains the maximum. -/
def lastAxisAttainingMax {α : Type} [LinearOrder α] (d : Vector3 α) : Axis3 :=
  if d.z ≥ d.x ∧ d.z ≥ d.y then Axis3.Z
  else if d.y ≥ d.x then Axis3.Y
  else Axis3.X

/-- `impl From<Point3<T>> for (T, T, T)` (`src/core/src/geom/point.rs`
lines 160-164): returns `(p.x, p.y, p.x)` in the source, reproduced
verbatim here. -/
def Point3.toTuple {α : Type} (p : Point3 α) : α × α × α :=
  (p.x, p.y, p.x)

/-- The exact `f32 -> f64` widening cast (`x as f64`); every `f32` value
converts exactly, so on the rational model it preserves the value. -/
def f32ToF64 (x : ℚ) : ℚ := x

/-- The `f64 -> f32` narrowing cast (`x as f32`); exact on all values the
claims evaluate, hence value-preserving on the rational model. -/
def f64ToF32 (x : ℚ) : ℚ := x

/-- `Matrix4x4` (`src/core/src/math/matrix4x4.rs`): a dense row-major
store of 16 `f32` entries, modelled as a list (entry `(i, j)` lives at
linear offset `j + 4*i`). -/
structure Matrix4x4 where
  entries : List ℚ
deriving DecidableEq, Repr

/-- `Matrix4x4::new` (row-major order of the 16 arguments). -/
def Matrix4x4.new (m11 m12 m13 m14 m21 m22 m23 m24
    m31 m32 m33 m34 m41 m42 m43 m44 : ℚ) : Matrix4x4 :=
  ⟨[m11, m12, m13, m14, m21, m22, m23, m24, m31, m32, m33, m34, m41, m42, m43, m44]⟩

/-- The `Index<(usize, usize)>` impl (`src/core/src/math/matrix4x4.rs`
lines 151-157): `&self.0[j + 4 * i]`.  Rust's slice indexing panics when
the *linear offset* is out of range; `none` models that panic. -/
def Matrix4x4.index (m : Matrix4x4) (i j : ℕ) : Option ℚ :=
  m.entries.get? (j + 4 * i)

/-- Read access through `Matrix4x4::get_mut` (lines 63-73):
`assert!(i < 4); assert!(j < 4); &mut self.0[j + 4 * i]`.  `none`
models a failed assertion (or an out-of-range slice access). -/
def Matrix4x4.getChecked (m : Matrix4x4) (i j : ℕ) : Option ℚ :=
  if i < 4 then
    if j < 4 then m.entries.get? (j + 4 * i)
    else none
  else none

/-- Total accessor for in-range `m[(i, j)]` reads (used where the source
indexes with literals that are statically in range). -/
def Matrix4x4.el (m : Matrix4x4) (i j : ℕ) : ℚ :=
  m.entries.getD (j + 4 * i) 0

/-- Outcome of running a Rust function that may `panic!`. -/
inductive RustResult (α : Type) where
  | ok (a : α)
  | panicked (msg : String)
deriving DecidableEq, Repr

/-- The external dense linear-algebra backend of §6 (LAPACKE's `dgetrf`
and `dgetri`, not code of this repository): `dgetrf` returns the
factored entries, the pivot indices and an `info` status; `dgetri`
returns the inverted entries and an `info` status.  Kept abstract so
the wrapper theorems hold for every backend. -/
structure LapackBackend where
  dgetrf : List ℚ → List ℚ × List ℤ × ℤ
  dgetri : List ℚ → List ℤ → List ℚ × ℤ

/-- `Matrix4x4::inverse` (`src/core/src/math/matrix4x4.rs` lines 40-61):
converts the 16 entries to `f64`, calls `dgetrf` then `dgetri`, panics
on a negative `info`, returns `None` on a positive `info` (singular
pivot), otherwise converts the double-precision inverse back to `f32`. -/
def Matrix4x4.inverse (B : LapackBackend) (m : Matrix4x4) :
    RustResult (Option Matrix4x4) :=
  let inv : List ℚ := m.entries.map f32ToF64
  let r1 := B.dgetrf inv
  if r1.2.2 < 0 then RustResult.panicked "sgetrf: parameter had an invalid value"
  else if r1.2.2 > 0 then RustResult.ok none
  else
    let r2 := B.dgetri r1.1 r1.2.1
    if r2.2 < 0 then RustResult.panicked "dgetri: parameter had an invalid value"
    else if r2.2 > 0 then RustResult.ok none
    else RustResult.ok (some ⟨r2.1.map f64ToF32⟩)

/-- `Transform` (`src/core/src/transform.rs`): a forward/inverse matrix
pair. -/
structure Transform where
  forward : Matrix4x4
  inverse : Matrix4x4
deriving DecidableEq, Repr

/-- `Transform::new` (`src/core/src/transform.rs` lines 10-15): computes
the inverse via `Matrix4x4::inverse` and `.expect(..)`s the result, so a
singular forward matrix panics with the `expect` message. -/
def Transform.new (B : LapackBackend) (forward : Matrix4x4) :
    RustResult Transform :=
  match Matrix4x4.inverse B forward with
  | RustResult.ok (some inverse) => RustResult.ok ⟨forward, inverse⟩
  | RustResult.ok none => RustResult.panicked "transformation matrix is singular"
  | RustResult.panicked msg => RustResult.panicked msg

/-- `Transform::inverse` (`src/core/src/transform.rs`): swaps the stored
pair in O(1). -/
def Transform.inverted (t : Transform) : Transform :=
  ⟨t.inverse, t.forward⟩

/-- `Transform::translate` (`src/core/src/transform.rs` lines 41-59). -/
def Transform.translate (delta : Vector3 ℚ) : Transform :=
  ⟨Matrix4x4.new
      1 0 0 delta.x
      0 1 0 delta.y
      0 0 1 delta.z
      0 0 0 1,
   Matrix4x4.new
      1 0 0 (-delta.x)
      0 1 0 (-delta.y)
      0 0 1 (-delta.z)
      0 0 0 1⟩

/-- `Transform::transform` (`src/core/src/transform.rs` lines 137-152)
applied to an `(x, y, z)` tuple (so `Into`/`From` are the identity):
the homogeneous map by the forward matrix, with a perspective divide
only when the homogeneous `w` is not exactly 1. -/
def Transform.transform (t : Transform) (src : ℚ × ℚ × ℚ) : ℚ × ℚ × ℚ :=
  let (x, y, z) := src
  let m := t.forward
  let xp := m.el 0 0 * x + m.el 0 1 * y + m.el 0 2 * z + m.el 0 3
  let yp := m.el 1 0 * x + m.el 1 1 * y + m.el 1 2 * z + m.el 1 3
  let zp := m.el 2 0 * x + m.el 2 1 * y + m.el 2 2 * z + m.el 2 3
  let wp := m.el 3 0 * x + m.el 3 1 * y + m.el 3 2 * z + m.el 3 3
  if wp = 1 then (xp, yp, zp)
  else (xp / wp, yp / wp, zp / wp)

/-- Spec-side homogeneous application: row `i` of `m` dotted with
`[x, y, z, 1]`, as a 4-component result. -/
def homApply (m : Matrix4x4) (src : ℚ × ℚ × ℚ) : ℚ × ℚ × ℚ × ℚ :=
  let (x, y, z) := src
  let row : ℕ → ℚ := fun i =>
    m.el i 0 * x + m.el i 1 * y + m.el i 2 * z + m.el i 3 * 1
  (row 0, row 1, row 2, row 3)

/-- Componentwise negation of a `Vector3` (`impl Neg`, which builds the
result through `Self::new`; over the rational model the NaN assert is
vacuous). -/
def Vector3.neg (v : Vector3 ℚ) : Vector3 ℚ :=
  ⟨-v.x, -v.y, -v.z⟩

/-- The generic (default) cross-product formula of `CrossSpec`
(`src/core/src/geom/vector.rs`):
`(y0*z1 - z0*y1, z0*x1 - x0*z1, x0*y1 - y0*x1)`. -/
def crossGeneric (a b : Vector3 ℚ) : Vector3 ℚ :=
  ⟨a.y * b.z - a.z * b.y, a.z * b.x - a.x * b.z, a.x * b.y - a.y * b.x⟩

/-- `Vector3::<f32>::cross` specialization (`src/core/src/geom/vector.rs`
lines 360-395): promotes both operands' components to `f64`, evaluates
the generic formula in 64-bit, and demotes the result to `f32`. -/
def Vector3.cross (a b : Vector3 ℚ) : Vector3 ℚ :=
  let x0 := f32ToF64 a.x
  let y0 := f32ToF64 a.y
  let z0 := f32ToF64 a.z
  let x1 := f32ToF64 b.x
  let y1 := f32ToF64 b.y
  let z1 := f32ToF64 b.z
  ⟨f64ToF32 (y0 * z1 - z0 * y1),
   f64ToF32 (z0 * x1 - x0 * z1),
   f64ToF32 (x0 * y1 - y0 * x1)⟩

/-- An IEEE-like float value class: a finite (exactly represented)
number, NaN, or a signed infinity.  Signed zero is not distinguished
(no claim depends on it). -/
inductive FVal where
  | num (q : ℚ)
  | nan
  | inf
  | neginf
deriving DecidableEq, Repr

/-- `is_nan`. -/
def FVal.isNan : FVal → Bool
  | FVal.nan => true
  | _ => false

/-- Float addition on the class model (NaN propagates; `inf + -inf`
is NaN). -/
def FVal.add : FVal → FVal → FVal
  | FVal.nan, _ => FVal.nan
  | _, FVal.nan => FVal.nan
  | FVal.inf, FVal.neginf => FVal.nan
  | FVal.neginf, FVal.inf => FVal.nan
  | FVal.inf, _ => FVal.inf
  | _, FVal.inf => FVal.inf
  | FVal.neginf, _ => FVal.neginf
  | _, FVal.neginf => FVal.neginf
  | FVal.num a, FVal.num b => FVal.num (a + b)

/-- Float multiplication on the class model (NaN propagates;
`0 * inf` is NaN). -/
def FVal.mul : FVal → FVal → FVal
  | FVal.nan, _ => FVal.nan
  | _, FVal.nan => FVal.nan
  | FVal.inf, FVal.inf => FVal.inf
  | FVal.inf, FVal.neginf => FVal.neginf
  | FVal.neginf, FVal.inf => FVal.neginf
  | FVal.neginf, FVal.neginf => FVal.inf
  | FVal.inf, FVal.num b =>
      if b > 0 then FVal.inf else if b < 0 then FVal.neginf else FVal.nan
  | FVal.num a, FVal.inf =>
      if a > 0 then FVal.inf else if a < 0 then FVal.neginf else FVal.nan
  | FVal.neginf, FVal.num b =>
      if b > 0 then FVal.neginf else if b < 0 then FVal.inf else FVal.nan
  | FVal.num a, FVal.neginf =>
      if a > 0 then FVal.neginf else if a < 0 then FVal.inf else FVal.nan
  | FVal.num a, FVal.num b => FVal.num (a * b)

/-- Float division on the class model: `0 / 0` and `inf / inf` are NaN,
`a / 0` for finite nonzero `a` is a signed infinity, `a / inf` is 0. -/
def FVal.div : FVal → FVal → FVal
  | FVal.nan, _ => FVal.nan
  | _, FVal.nan => FVal.nan
  | FVal.inf, FVal.inf => FVal.nan
  | FVal.inf, FVal.neginf => FVal.nan
  | FVal.neginf, FVal.inf => FVal.nan
  | FVal.neginf, FVal.neginf => FVal.nan
  | FVal.inf, FVal.num b => if b < 0 then FVal.neginf else FVal.inf
  | FVal.neginf, FVal.num b => if b < 0 then FVal.inf else FVal.neginf
  | FVal.num _, FVal.inf => FVal.num 0
  | FVal.num _, FVal.neginf => FVal.num 0
  | FVal.num a, FVal.num b =>
      if b ≠ 0 then FVal.num (a / b)
      else if a = 0 then FVal.nan
      else if a > 0 then FVal.inf
      else FVal.neginf

/-!
Constructors (`::new`) of the float-component geometric types.  Each
takes `dbg : Bool`, true when the build runs `debug_assert!` checks
(debug build), false for a release build; an `assert!` fires in every
build, a `debug_assert!` only when `dbg` is true.  `none` models a
failed assertion (panic).
-/

/-- `Vector2::<f32>::new` (`src/core/src/geom/vector.rs`, `NewSpec<f32>`):
`assert!(!field.is_nan())` on each component, active in every build. -/
def Vector2.newF32 (_dbg : Bool) (x y : FVal) : Option (Vector2 FVal) :=
  if x.isNan || y.isNan then none else some ⟨x, y⟩

/-- `Vector3::<f32>::new` (`src/core/src/geom/vector.rs`, `NewSpec<f32>`):
`assert!(!field.is_nan())` on each component, active in every build. -/
def Vector3.newF32 (_dbg : Bool) (x y z : FVal) : Option (Vector3 FVal) :=
  if x.isNan || y.isNan || z.isNan then none else some ⟨x, y, z⟩

/-- `Vector2::<f64>::new` (`NewSpec<f64>`): `debug_assert!` only. -/
def Vector2.newF64 (dbg : Bool) (x y : FVal) : Option (Vector2 FVal) :=
  if dbg && (x.isNan || y.isNan) then none else some ⟨x, y⟩

/-- `Vector3::<f64>::new` (`NewSpec<f64>`): `debug_assert!` only. -/
def Vector3.newF64 (dbg : Bool) (x y z : FVal) : Option (Vector3 FVal) :=
  if dbg && (x.isNan || y.isNan || z.isNan) then none else some ⟨x, y, z⟩

/-- `Point2::<f32>::new` (`src/core/src/geom/point.rs`, `impl_point_new`
`NewSpec<f32>`): `debug_assert!` only. -/
def Point2.newF32 (dbg : Bool) (x y : FVal) : Option (Point2 FVal) :=
  if dbg && (x.isNan || y.isNan) then none else some ⟨x, y⟩

/-- `Point2::<f64>::new` (`impl_point_new` `NewSpec<f64>`):
`debug_assert!` only. -/
def Point2.newF64 (dbg : Bool) (x y : FVal) : Option (Point2 FVal) :=
  if dbg && (x.isNan || y.isNan) then none else some ⟨x, y⟩

/-- `Point3::<f32>::new` (`impl_point_new` `NewSpec<f32>`):
`debug_assert!` only. -/
def Point3.newF32 (dbg : Bool) (x y z : FVal) : Option (Point3 FVal) :=
  if dbg && (x.isNan || y.isNan || z.isNan) then none else some ⟨x, y, z⟩

/-- `Point3::<f64>::new` (`impl_point_new` `NewSpec<f64>`):
`debug_assert!` only. -/
def Point3.newF64 (dbg : Bool) (x y z : FVal) : Option (Point3 FVal) :=
  if dbg && (x.isNan || y.isNan || z.isNan) then none else some ⟨x, y, z⟩

/-- `Normal3::<f32>::new` (`src/core/src/geom/normal.rs`, `NewSpec<f32>`):
`debug_assert!` only. -/
def Normal3.newF32 (dbg : Bool) (x y z : FVal) : Option (Normal3 FVal) :=
  if dbg && (x.isNan || y.isNan || z.isNan) then none else some ⟨x, y, z⟩

/-- `Normal3::<f64>::new` (`src/core/src/geom/normal.rs`, `NewSpec<f64>`):
`debug_assert!` only. -/
def Normal3.newF64 (dbg : Bool) (x y z : FVal) : Option (Normal3 FVal) :=
  if dbg && (x.isNan || y.isNan || z.isNan) then none else some ⟨x, y, z⟩

/-- The generic (non-float) `new` path (`NewSpec` default impl): a bare
struct literal with no assertion, shown here at an integer scalar. -/
def Vector3.newInt (x y z : ℤ) : Vector3 ℤ :=
  ⟨x, y, z⟩

/-- `Vector3::length` over the float class model
(`src/core/src/geom/vector.rs`): `sqrt(x*x + y*y + z*z)`; the square
root is a parameter `s` of the model (only `s 0 = 0` is ever needed). -/
def Vector3.lengthF (s : FVal → FVal) (v : Vector3 FVal) : FVal :=
  s (FVal.add (FVal.add (FVal.mul v.x v.x) (FVal.mul v.y v.y)) (FVal.mul v.z v.z))

/-- The `Div<T>` operator of `impl_vector_scaling_ops`: builds the
result with a bare struct literal (`Self { field: div(...) }`),
*not* through `Self::new`, so no NaN assertion runs. -/
def Vector3.divScalar (v : Vector3 FVal) (rhs : FVal) : Vector3 FVal :=
  ⟨FVal.div v.x rhs, FVal.div v.y rhs, FVal.div v.z rhs⟩

/-- `Vector3::normalize`: `self / self.length()`. -/
def Vector3.normalize (s : FVal → FVal) (v : Vector3 FVal) : Vector3 FVal :=
  v.divScalar (v.lengthF s)

/-- `Vector2::length` over the float class model. -/
def Vector2.lengthF (s : FVal → FVal) (v : Vector2 FVal) : FVal :=
  s (FVal.add (FVal.mul v.x v.x) (FVal.mul v.y v.y))

/-- The `Div<T>` operator for `Vector2`: bare struct literal, no
NaN assertion. -/
def Vector2.divScalar (v : Vector2 FVal) (rhs : FVal) : Vector2 FVal :=
  ⟨FVal.div v.x rhs, FVal.div v.y rhs⟩

/-- `Vector2::normalize`: `self / self.length()`. -/
def Vector2.normalize (s : FVal → FVal) (v : Vector2 FVal) : Vector2 FVal :=
  v.divScalar (v.lengthF s)

/-- Claim C1, negation of its final clause: despite the middle-axis
defect, `min ≤ max` *does* hold componentwise for every corner pair in
both `Bounds2::new` and `Bounds3::new` — in particular on the y axis,
because `min.y = min(p1.y, p2.y) ≤ p2.y ≤ max(p1.x, p2.y) = max.y`.
So "min ≤ max is not guaranteed for the y axis" is false. -/
theorem bounds_new_min_le_max_always :
    (∀ p1 p2 : Point2 ℤ,
      (Bounds2.new p1 p2).min.x ≤ (Bounds2.new p1 p2).max.x ∧
      (Bounds2.new p1 p2).min.y ≤ (Bounds2.new p1 p2).max.y) ∧
    (∀ p1 p2 : Point3 ℤ,
      (Bounds3.new p1 p2).min.x ≤ (Bounds3.new p1 p2).max.x ∧
      (Bounds3.new p1 p2).min.y ≤ (Bounds3.new p1 p2).max.y ∧
      (Bounds3.new p1 p2).min.z ≤ (Bounds3.new p1 p2).max.z) := by
  constructor
  · intro p1 p2
    simp only [Bounds2.new]
    omega
  · intro p1 p2
    simp only [Bounds3.new]
    omega

/-- Claim C1 (amended): both constructors do compute the middle-axis
component of the max corner from the wrong source coordinate
(`max.y = max(p1.x, p2.y)`, observably different from the per-axis
`max(p1.y, p2.y)`), while every other component of min and max is the
correct per-axis min/max; however `min ≤ max` componentwise still holds
for every corner pair — the actual consequence of the defect is that
the constructed box can fail to contain an input corner. -/
theorem bounds_new_middle_axis_defect :
    (∀ p1 p2 : Point2 ℤ,
      (Bounds2.new p1 p2).max.y = Max.max p1.x p2.y ∧
      (Bounds2.new p1 p2).min.x = Min.min p1.x p2.x ∧
      (Bounds2.new p1 p2).min.y = Min.min p1.y p2.y ∧
      (Bounds2.new p1 p2).max.x = Max.max p1.x p2.x) ∧
    (∀ p1 p2 : Point3 ℤ,
      (Bounds3.new p1 p2).max.y = Max.max p1.x p2.y ∧
      (Bounds3.new p1 p2).min.x = Min.min p1.x p2.x ∧
      (Bounds3.new p1 p2).min.y = Min.min p1.y p2.y ∧
      (Bounds3.new p1 p2).min.z = Min.min p1.z p2.z ∧
      (Bounds3.new p1 p2).max.x = Max.max p1.x p2.x ∧
      (Bounds3.new p1 p2).max.z = Max.max p1.z p2.z) ∧
    (∃ p1 p2 : Point2 ℤ, (Bounds2.new p1 p2).max.y ≠ Max.max p1.y p2.y) ∧
    (∃ p1 p2 : Point3 ℤ, (Bounds3.new p1 p2).max.y ≠ Max.max p1.y p2.y) ∧
    (∀ p1 p2 : Point2 ℤ,
      (Bounds2.new p1 p2).min.y ≤ (Bounds2.new p1 p2).max.y) ∧
    (∃ p1 p2 : Point2 ℤ,
      ¬ ((Bounds2.new p1 p2).min.y ≤ p1.y ∧ p1.y ≤ (Bounds2.new p1 p2).max.y)) := by
  refine ⟨fun p1 p2 => ⟨rfl, rfl, rfl, rfl⟩,
          fun p1 p2 => ⟨rfl, rfl, rfl, rfl, rfl, rfl⟩,
          ⟨⟨0, 5⟩, ⟨0, 4⟩, by decide⟩,
          ⟨⟨0, 5, 0⟩, ⟨0, 4, 0⟩, by decide⟩,
          ?_,
          ⟨⟨0, 5⟩, ⟨0, 4⟩, by decide⟩⟩
  intro p1 p2
  simp only [Bounds2.new]
  omega

/-- Claim C8: `Bounds3::maximum_extent` returns the last axis
(in X, Y, Z priority order) whose diagonal component attains the
maximum — i.e. X exactly when `d.x > d.y && d.x > d.z`, else Y when
`d.y > d.z`, else Z, so ties resolve toward the later axis; and the
bounds built from corners (0,0,0) and (2,3,1) have diagonal (2,3,1)
and maximum extent Y. -/
theorem maximum_extent_tie_break :
    (∀ b : Bounds3 ℤ, b.maximumExtent = lastAxisAttainingMax b.diagonal) ∧
    (Bounds3.new (⟨0, 0, 0⟩ : Point3 ℤ) ⟨2, 3, 1⟩).diagonal = ⟨2, 3, 1⟩ ∧
    (Bounds3.new (⟨0, 0, 0⟩ : Point3 ℤ) ⟨2, 3, 1⟩).maximumExtent = Axis3.Y := by
  refine ⟨?_, by decide, by decide⟩
  intro b
  simp only [Bounds3.maximumExtent, lastAxisAttainingMax]
  rcases hb : b.diagonal with ⟨dx, dy, dz⟩
  split_ifs <;> first | rfl | omega

/-- Claim C9: the `Point3`-to-tuple conversion returns
`(p.x, p.y, p.x)` — the first two slots are the matching components,
the third slot is derived from `x` rather than `z`, observably wrong
whenever `p.x ≠ p.z`. -/
theorem point3_to_tuple_copy_paste_defect :
    (∀ p : Point3 ℤ,
      p.toTuple.1 = p.x ∧ p.toTuple.2.1 = p.y ∧ p.toTuple.2.2 = p.x) ∧
    (∃ p : Point3 ℤ, p.toTuple.2.2 ≠ p.z) := by
  exact ⟨fun p => ⟨rfl, rfl, rfl⟩, ⟨⟨0, 0, 1⟩, by decide⟩⟩

/-- Claim C3: `Transform::transform` on an `(x, y, z)` tuple computes
the homogeneous affine map with the forward matrix (component `i` is
row `i` dotted with `[x, y, z, 1]`) and divides by the homogeneous `w`
component only when `w` is not exactly 1; and `translate((1,2,3))`
applied to `(0,0,0)` yields `(1,2,3)`, while its inverse applied to
`(1,2,3)` yields `(0,0,0)`. -/
theorem transform_homogeneous_map :
    (∀ (t : Transform) (src : ℚ × ℚ × ℚ),
      t.transform src =
        (let r := homApply t.forward src
         if r.2.2.2 = 1 then (r.1, r.2.1, r.2.2.1)
         else (r.1 / r.2.2.2, r.2.1 / r.2.2.2, r.2.2.1 / r.2.2.2))) ∧
    (Transform.translate ⟨1, 2, 3⟩).transform (0, 0, 0) = (1, 2, 3) ∧
    (Transform.translate ⟨1, 2, 3⟩).inverted.transform (1, 2, 3) = (0, 0, 0) := by
  refine ⟨?_, ?_, ?_⟩
  · intro t src
    obtain ⟨x, y, z⟩ := src
    simp only [Transform.transform, homApply, mul_one]
  · norm_num [Transform.transform, Transform.translate, Matrix4x4.el,
      Matrix4x4.new, List.getD]
  · norm_num [Transform.transform, Transform.translate, Transform.inverted,
      Matrix4x4.el, Matrix4x4.new, List.getD]

/-- Claim C4: the `f32` cross-product specialization promotes both
operands' components to `f64`, evaluates the generic formula in 64-bit,
and demotes the result to `f32`; and it is anticommutative,
`a.cross(b) = (-b).cross(a)`, for all inputs of the exact model. -/
theorem cross_f32_promotes_and_anticommutes :
    (∀ a b : Vector3 ℚ,
      a.cross b =
        ⟨f64ToF32 ((crossGeneric ⟨f32ToF64 a.x, f32ToF64 a.y, f32ToF64 a.z⟩
            ⟨f32ToF64 b.x, f32ToF64 b.y, f32ToF64 b.z⟩).x),
         f64ToF32 ((crossGeneric ⟨f32ToF64 a.x, f32ToF64 a.y, f32ToF64 a.z⟩
            ⟨f32ToF64 b.x, f32ToF64 b.y, f32ToF64 b.z⟩).y),
         f64ToF32 ((crossGeneric ⟨f32ToF64 a.x, f32ToF64 a.y, f32ToF64 a.z⟩
            ⟨f32ToF64 b.x, f32ToF64 b.y, f32ToF64 b.z⟩).z)⟩) ∧
    (∀ a b : Vector3 ℚ, a.cross b = (b.neg).cross a) := by
  constructor
  · intro a b
    rfl
  · intro a b
    simp only [Vector3.cross, Vector3.neg, f32ToF64, f64ToF32, Vector3.mk.injEq]
    refine ⟨by ring, by ring, by ring⟩

/-- A concrete matrix holding 0, 1, ..., 15 in row-major order, so every
entry names its own linear offset. -/
def mSeq : Matrix4x4 :=
  Matrix4x4.new 0 1 2 3 4 5 6 7 8 9 10 11 12 13 14 15

/-- Claim C5, counterexample: the index pair (0, 4) has `j ≥ 4`, yet the
read through the `Index<(usize, usize)>` impl does *not* fail — it
silently returns the in-range element at linear offset `4 + 4·0 = 4`,
which is the (1, 0) entry. -/
theorem matrix_index_out_of_range_aliases :
    mSeq.index 0 4 = some (mSeq.el 1 0) ∧ mSeq.index 0 4 ≠ none := by
  constructor
  · rfl
  · simp [mSeq, Matrix4x4.index, Matrix4x4.new]

/-- Claim C5 (amended): for a `Matrix4x4` (16 entries), a read through
the `Index<(usize, usize)>` impl fails exactly when the *linear offset*
`j + 4·i` is at least 16 — out-of-range pairs whose offset is below 16
silently alias an in-range element — while a read through `get_mut`
(which `set` uses) fails exactly when `i ≥ 4` or `j ≥ 4`. -/
theorem matrix_index_linear_bounds_check (m : Matrix4x4) (i j : ℕ)
    (h : m.entries.length = 16) :
    (m.index i j ≠ none ↔ j + 4 * i < 16) ∧
    (m.getChecked i j ≠ none ↔ (i < 4 ∧ j < 4)) := by
  constructor
  · rw [Ne, Matrix4x4.index, List.get?_eq_none, h]
    omega
  · rw [Matrix4x4.getChecked]
    by_cases hi : i < 4
    · by_cases hj : j < 4
      · rw [if_pos hi, if_pos hj, Ne, List.get?_eq_none, h]
        omega
      · rw [if_pos hi, if_neg hj]
        simp [hi, hj]
    · rw [if_neg hi]
      simp [hi]

/-- Witness for `matrix_index_linear_bounds_check` at the concrete
matrix `mSeq` and indices (1, 2). -/
theorem matrix_index_linear_bounds_check_witness :
    mSeq.entries.length = 16 ∧
    ((mSeq.index 1 2 ≠ none ↔ 2 + 4 * 1 < 16) ∧
     (mSeq.getChecked 1 2 ≠ none ↔ (1 < 4 ∧ 2 < 4))) :=
  ⟨rfl, matrix_index_linear_bounds_check mSeq 1 2 rfl⟩

/-- The `info` status reported by the backend's `dgetrf` on the
double-precision copy of `m`. -/
def dgetrfInfo (B : LapackBackend) (m : Matrix4x4) : ℤ :=
  (B.dgetrf (m.entries.map f32ToF64)).2.2

/-- The result of the backend's `dgetri` on the factorization that
`dgetrf` produced for `m`. -/
def dgetriResult (B : LapackBackend) (m : Matrix4x4) : List ℚ × ℤ :=
  B.dgetri (B.dgetrf (m.entries.map f32ToF64)).1
    (B.dgetrf (m.entries.map f32ToF64)).2.1

/-- The `info` status reported by the backend's `dgetri`. -/
def dgetriInfo (B : LapackBackend) (m : Matrix4x4) : ℤ :=
  (dgetriResult B m).2

/-- Claim C2: `Matrix4x4::inverse` converts the 16 entries to `f64`,
runs the backend's LU factorization (`dgetrf`) and back-substitution
(`dgetri`) on the double-precision copy, and converts the result back
to `f32`; for every backend and every matrix it returns `None` exactly
when one of the two calls reports a positive (singular-pivot) status,
panics exactly when one reports a negative (invalid-parameter) status,
and otherwise returns the converted inverse. -/
theorem inverse_status_mapping (B : LapackBackend) (m : Matrix4x4) :
    (Matrix4x4.inverse B m = RustResult.ok none ↔
      0 < dgetrfInfo B m ∨ (dgetrfInfo B m = 0 ∧ 0 < dgetriInfo B m)) ∧
    ((∃ msg, Matrix4x4.inverse B m = RustResult.panicked msg) ↔
      dgetrfInfo B m < 0 ∨ (dgetrfInfo B m = 0 ∧ dgetriInfo B m < 0)) ∧
    (dgetrfInfo B m = 0 → dgetriInfo B m = 0 →
      Matrix4x4.inverse B m =
        RustResult.ok (some ⟨(dgetriResult B m).1.map f64ToF32⟩)) := by
  simp only [Matrix4x4.inverse, dgetrfInfo, dgetriInfo, dgetriResult]
  split_ifs with h1 h2 h3 h4 <;>
    refine ⟨?_, ?_, ?_⟩ <;> simp_all <;> omega

/-- A backend whose two routines report success and return their input
unchanged. -/
def backendOk : LapackBackend :=
  ⟨fun l => (l, [1, 2, 3, 4], 0), fun l _ => (l, 0)⟩

/-- A backend whose factorization reports a singular pivot
(`info = 1`). -/
def backendSingular : LapackBackend :=
  ⟨fun l => (l, [1, 2, 3, 4], 1), fun l _ => (l, 0)⟩

/-- A backend whose factorization reports an invalid parameter
(`info = -1`). -/
def backendInvalid : LapackBackend :=
  ⟨fun l => (l, [1, 2, 3, 4], -1), fun l _ => (l, 0)⟩

/-- Witness for `inverse_status_mapping` at three concrete backends. -/
theorem inverse_status_mapping_witness :
    Matrix4x4.inverse backendSingular mSeq = RustResult.ok none ∧
    (∃ msg, Matrix4x4.inverse backendInvalid mSeq = RustResult.panicked msg) ∧
    Matrix4x4.inverse backendOk mSeq =
      RustResult.ok (some ⟨(dgetriResult backendOk mSeq).1.map f64ToF32⟩) := by
  refine ⟨?_, ?_, ?_⟩
  · exact (inverse_status_mapping backendSingular mSeq).1.mpr
      (Or.inl (by norm_num [dgetrfInfo, backendSingular]))
  · exact (inverse_status_mapping backendInvalid mSeq).2.1.mpr
      (Or.inl (by norm_num [dgetrfInfo, backendInvalid]))
  · exact (inverse_status_mapping backendOk mSeq).2.2
      (by norm_num [dgetrfInfo, backendOk])
      (by norm_num [dgetriInfo, dgetriResult, backendOk])

/-- Claim C6: `Transform::new` computes the inverse via
`Matrix4x4::inverse`; it succeeds exactly when inversion succeeds, and
then stores the forward matrix together with the computed inverse;
a singular forward matrix panics with the `expect` message (never a
silent identity substitution), and a backend panic propagates. -/
theorem transform_new_fails_fast (B : LapackBackend) (m : Matrix4x4) :
    ((∃ t, Transform.new B m = RustResult.ok t) ↔
      (∃ inv, Matrix4x4.inverse B m = RustResult.ok (some inv))) ∧
    (∀ t, Transform.new B m = RustResult.ok t →
      t.forward = m ∧ Matrix4x4.inverse B m = RustResult.ok (some t.inverse)) ∧
    (Matrix4x4.inverse B m = RustResult.ok none →
      Transform.new B m = RustResult.panicked "transformation matrix is singular") ∧
    (∀ msg, Matrix4x4.inverse B m = RustResult.panicked msg →
      Transform.new B m = RustResult.panicked msg) := by
  rcases h : Matrix4x4.inverse B m with a | msg
  · rcases a with _ | inv
    · simp [Transform.new, h]
    · simp only [Transform.new, h]
      refine ⟨by simp, ?_, by simp, by simp⟩
      intro t ht
      rw [RustResult.ok.injEq] at ht
      rw [← ht]
      exact ⟨rfl, rfl⟩
  · simp [Transform.new, h]

/-- Witness for `transform_new_fails_fast` at two concrete backends. -/
theorem transform_new_fails_fast_witness :
    Transform.new backendSingular mSeq =
      RustResult.panicked "transformation matrix is singular" ∧
    Transform.new backendOk mSeq =
      RustResult.ok ⟨mSeq, ⟨(dgetriResult backendOk mSeq).1.map f64ToF32⟩⟩ := by
  constructor
  · exact (transform_new_fails_fast backendSingular mSeq).2.2.1 (by rfl)
  · rfl

/-- Claim C7: NaN enforcement is non-uniform across structurally
identical constructors.  `Vector2::<f32>::new` and `Vector3::<f32>::new`
use an always-on `assert!` that fails on any NaN component in every
build (`dbg` arbitrary), while the `f64` vector constructors and all
float `Point2`/`Point3`/`Normal3` constructors check NaN only under
`debug_assert!` (`dbg = true`) and accept NaN components in release
builds (`dbg = false`); the generic non-float path has no check
at all. -/
theorem nan_assertion_nonuniform :
    (∀ (dbg : Bool) (x y : FVal),
      Vector2.newF32 dbg x y = none ↔ (x.isNan || y.isNan) = true) ∧
    (∀ (dbg : Bool) (x y z : FVal),
      Vector3.newF32 dbg x y z = none ↔ (x.isNan || y.isNan || z.isNan) = true) ∧
    (∀ x y : FVal,
      (Vector2.newF64 true x y = none ↔ (x.isNan || y.isNan) = true) ∧
      Vector2.newF64 false x y = some ⟨x, y⟩) ∧
    (∀ x y z : FVal,
      (Vector3.newF64 true x y z = none ↔ (x.isNan || y.isNan || z.isNan) = true) ∧
      Vector3.newF64 false x y z = some ⟨x, y, z⟩) ∧
    (∀ x y : FVal,
      (Point2.newF32 true x y = none ↔ (x.isNan || y.isNan) = true) ∧
      Point2.newF32 false x y = some ⟨x, y⟩ ∧
      (Point2.newF64 true x y = none ↔ (x.isNan || y.isNan) = true) ∧
      Point2.newF64 false x y = some ⟨x, y⟩) ∧
    (∀ x y z : FVal,
      (Point3.newF32 true x y z = none ↔ (x.isNan || y.isNan || z.isNan) = true) ∧
      Point3.newF32 false x y z = some ⟨x, y, z⟩ ∧
      (Point3.newF64 true x y z = none ↔ (x.isNan || y.isNan || z.isNan) = true) ∧
      Point3.newF64 false x y z = some ⟨x, y, z⟩) ∧
    (∀ x y z : FVal,
      (Normal3.newF32 true x y z = none ↔ (x.isNan || y.isNan || z.isNan) = true) ∧
      Normal3.newF32 false x y z = some ⟨x, y, z⟩ ∧
      (Normal3.newF64 true x y z = none ↔ (x.isNan || y.isNan || z.isNan) = true) ∧
      Normal3.newF64 false x y z = some ⟨x, y, z⟩) ∧
    Point3.newF32 false FVal.nan (FVal.num 0) (FVal.num 0) =
      some ⟨FVal.nan, FVal.num 0, FVal.num 0⟩ ∧
    (∀ x y z : ℤ, Vector3.newInt x y z = ⟨x, y, z⟩) := by
  refine ⟨?_, ?_, ?_, ?_, ?_, ?_, ?_, rfl, fun x y z => rfl⟩
  · intro dbg x y
    by_cases h : (x.isNan || y.isNan) = true <;> simp [Vector2.newF32, h]
  · intro dbg x y z
    by_cases h : (x.isNan || y.isNan || z.isNan) = true <;> simp [Vector3.newF32, h]
  · intro x y
    by_cases h : (x.isNan || y.isNan) = true <;> simp [Vector2.newF64, h]
  · intro x y z
    by_cases h : (x.isNan || y.isNan || z.isNan) = true <;> simp [Vector3.newF64, h]
  · intro x y
    by_cases h : (x.isNan || y.isNan) = true <;>
      simp [Point2.newF32, Point2.newF64, h]
  · intro x y z
    by_cases h : (x.isNan || y.isNan || z.isNan) = true <;>
      simp [Point3.newF32, Point3.newF64, h]
  · intro x y z
    by_cases h : (x.isNan || y.isNan || z.isNan) = true <;>
      simp [Normal3.newF32, Normal3.newF64, h]

/-- Claim C10: with any square root satisfying `sqrt 0 = 0`, the length
of the zero `Vector3` (and zero `Vector2`) is 0, and `normalize` on the
zero vector returns a vector whose components are all NaN (each is
`0 / 0`) without panicking in any build: the scalar-division operator
builds its result with a bare struct literal, bypassing the
NaN-asserting constructor, which would have rejected exactly these
components. -/
theorem normalize_zero_vector_nan (s : FVal → FVal)
    (h : s (FVal.num 0) = FVal.num 0) :
    Vector3.lengthF s ⟨FVal.num 0, FVal.num 0, FVal.num 0⟩ = FVal.num 0 ∧
    Vector3.normalize s ⟨FVal.num 0, FVal.num 0, FVal.num 0⟩ =
      ⟨FVal.nan, FVal.nan, FVal.nan⟩ ∧
    Vector2.lengthF s ⟨FVal.num 0, FVal.num 0⟩ = FVal.num 0 ∧
    Vector2.normalize s ⟨FVal.num 0, FVal.num 0⟩ = ⟨FVal.nan, FVal.nan⟩ ∧
    (∀ dbg : Bool, Vector3.newF32 dbg FVal.nan FVal.nan FVal.nan = none) ∧
    (∀ dbg : Bool, Vector2.newF32 dbg FVal.nan FVal.nan = none) := by
  have hsum3 : FVal.add (FVal.add (FVal.mul (FVal.num 0) (FVal.num 0))
      (FVal.mul (FVal.num 0) (FVal.num 0))) (FVal.mul (FVal.num 0) (FVal.num 0)) =
      FVal.num 0 := by
    simp [FVal.add, FVal.mul]
  have hsum2 : FVal.add (FVal.mul (FVal.num 0) (FVal.num 0))
      (FVal.mul (FVal.num 0) (FVal.num 0)) = FVal.num 0 := by
    simp [FVal.add, FVal.mul]
  have hlen3 : Vector3.lengthF s ⟨FVal.num 0, FVal.num 0, FVal.num 0⟩ = FVal.num 0 := by
    rw [Vector3.lengthF]
    simp only [hsum3]
    exact h
  have hlen2 : Vector2.lengthF s ⟨FVal.num 0, FVal.num 0⟩ = FVal.num 0 := by
    rw [Vector2.lengthF]
    simp only [hsum2]
    exact h
  have hdiv : FVal.div (FVal.num 0) (FVal.num 0) = FVal.nan := by
    simp [FVal.div]
  refine ⟨hlen3, ?_, hlen2, ?_, fun dbg => rfl, fun dbg => rfl⟩
  · rw [Vector3.normalize, hlen3, Vector3.divScalar]
    simp [hdiv]
  · rw [Vector2.normalize, hlen2, Vector2.divScalar]
    simp [hdiv]

/-- Witness for `normalize_zero_vector_nan`: the identity function is a
square root model on the zero input (`id 0 = 0`). -/
theorem normalize_zero_vector_nan_witness :
    id (FVal.num 0) = FVal.num 0 ∧
    Vector3.normalize id ⟨FVal.num 0, FVal.num 0, FVal.num 0⟩ =
      ⟨FVal.nan, FVal.nan, FVal.nan⟩ :=
  ⟨rfl, (normalize_zero_vector_nan id rfl).2.1⟩

end PBR
